import Mathlib

set_option maxHeartbeats 1000000

namespace ZyraXRobot

/-! Shallow embedding of the ZyraXRobot chat-moderation bot.
Each namespace mirrors one source module.  Machine integers are modelled
as Nat and Int (Python integers are unbounded, so no wraparound is needed);
wall-clock timestamps are explicit Nat and Int parameters; fallible
operations return Option or Except; transport and database access is
modelled as explicit oracles and state passing. -/

/-! Module src/core/constants.py : time multipliers. -/

def MINUTE : Nat := 60

def HOUR : Nat := 60 * MINUTE

def DAY : Nat := 24 * HOUR

def WEEK : Nat := 7 * DAY

def MONTH : Nat := 30 * DAY

/-- TIME_PATTERNS dict from src/core/constants.py, as a lookup on the unit
character of a duration string. -/
def TIME_PATTERNS (c : Char) : Option Nat :=
  if c = 's' then some 1
  else if c = 'm' then some MINUTE
  else if c = 'h' then some HOUR
  else if c = 'd' then some DAY
  else if c = 'w' then some WEEK
  else if c = 'M' then some MONTH
  else none

namespace TimeParser

/-! Module src/utils/time_parser.py. -/

/-- Value of a nonempty list of decimal digit characters, most significant
first; this is how the regex capture group for the amount is converted by
int() in parse_time_string. -/
def digitsVal (ds : List Char) : Nat :=
  ds.foldl (fun acc c => 10 * acc + (c.toNat - 48)) 0

/-- Python str.replace of a single space by the empty string, on the
character list of the string. -/
def removeSpaces (cs : List Char) : List Char :=
  cs.filter (fun c => c ≠ ' ')

/-- Python str.strip : drop leading and trailing whitespace characters. -/
def pyStrip (cs : List Char) : List Char :=
  ((cs.dropWhile Char.isWhitespace).reverse.dropWhile Char.isWhitespace).reverse

/-- TimeParser.parse_time_string : match the cleaned string against the
regex pattern (digits)+ followed by exactly one unit character in smhdwM,
then multiply the amount by the unit multiplier.  Returns none when the
string is empty or does not match. -/
def parse_time_string (s : String) : Option Nat :=
  if s.data = [] then none
  else
    let cs := pyStrip (removeSpaces s.data)
    let ds := cs.takeWhile Char.isDigit
    let rest := cs.dropWhile Char.isDigit
    match ds, rest with
    | [], _ => none
    | _ :: _, [u] => (TIME_PATTERNS u).map (fun m => digitsVal ds * m)
    | _, _ => none

/-- Fueled decimal printer : one digit is produced per division step, and
the fuel bounds the number of steps. -/
def natDecimalCore : Nat → Nat → List Char
  | 0, _ => []
  | fuel + 1, n =>
    if n < 10 then [Char.ofNat (48 + n)]
    else natDecimalCore fuel (n / 10) ++ [Char.ofNat (48 + n % 10)]

/-- Decimal printing of a natural number, as Python f-string formatting of
an int produces it (most significant digit first, no sign, no padding);
fuel n + 1 always suffices since a number has at most n + 1 digits. -/
def natDecimal (n : Nat) : List Char :=
  natDecimalCore (n + 1) n

/-- Unit table of TimeParser.format_duration, largest first. -/
def formatUnits : List (String × Nat) :=
  [("week", 604800), ("day", 86400), ("hour", 3600), ("minute", 60), ("second", 1)]

/-- Loop body of format_duration : walk the unit table, and whenever the
remaining seconds reach a unit, emit (count, unit name, unit seconds) and
continue with the remainder.  The unit seconds are carried along for the
statement of the value-preservation theorem; the rendered string only uses
count and name, exactly as the source. -/
def formatParts : List (String × Nat) → Nat → List (Nat × String × Nat)
  | [], _ => []
  | (name, us) :: rest, secs =>
    if us ≤ secs then (secs / us, name, us) :: formatParts rest (secs % us)
    else formatParts rest secs

/-- Remainder left over after the format_duration loop. -/
def formatRem : List (String × Nat) → Nat → Nat
  | [], secs => secs
  | (_, us) :: rest, secs =>
    if us ≤ secs then formatRem rest (secs % us)
    else formatRem rest secs

/-- Total seconds represented by an emitted parts list. -/
def partsSum (ps : List (Nat × String × Nat)) : Nat :=
  ps.foldr (fun p acc => p.1 * p.2.2 + acc) 0

/-- Rendering of one part, "3 hours" or "1 minute" (singular when the
count is one). -/
def partString (p : Nat × String × Nat) : String :=
  String.mk (natDecimal p.1) ++ " " ++ p.2.1 ++ (if p.1 = 1 then "" else "s")

/-- Joining of three or more parts : comma separated, with ", and " before
the last part. -/
def joinMany (acc : String) : List String → String
  | [] => acc
  | [last] => acc ++ ", and " ++ last
  | p :: q :: rest => joinMany (acc ++ ", " ++ p) (q :: rest)

/-- Assembly of the parts list into the final sentence, mirroring the
three arity cases of the source. -/
def joinParts : List String → String
  | [] => ""
  | [p] => p
  | [p, q] => p ++ " and " ++ q
  | p :: q :: r :: rest => joinMany p (q :: r :: rest)

/-- TimeParser.format_duration : human readable rendering of a number of
seconds, such as "2 days, 3 hours, and 1 minute". -/
def format_duration (seconds : Nat) : String :=
  if seconds = 0 then "0 seconds"
  else joinParts ((formatParts formatUnits seconds).map partString)

end TimeParser

/-- Association-list update with Python dict semantics : replace the value
in place when the key exists, append otherwise. -/
def dictSet {α β : Type} [DecidableEq α] : List (α × β) → α → β → List (α × β)
  | [], k, v => [(k, v)]
  | (k0, v0) :: rest, k, v =>
    if k0 = k then (k0, v) :: rest else (k0, v0) :: dictSet rest k v

/-- Association-list lookup with Python dict semantics. -/
def dictGet {α β : Type} [DecidableEq α] : List (α × β) → α → Option β
  | [], _ => none
  | (k0, v0) :: rest, k => if k0 = k then some v0 else dictGet rest k

namespace RateLimit

/-! Module src/core/decorators.py, rate_limit decorator.  The wrapper
reads its clock from bot_data under the key current_time with default 0
(no module of the repository ever writes that key), keeps one list of
accepted-call timestamps per (user id, function name) pair inside
bot_data, and either rejects the call or appends the current timestamp
and runs the handler body. -/

/-- The slice of bot_data that the rate_limit wrapper touches. -/
structure BotData where
  /-- Content of bot_data under the key current_time, when present.  No
  module of this repository ever stores that key, so in the program as
  shipped this field is always none and the wrapper falls back to 0. -/
  current_time : Option Int
  /-- Call history per (user id, function name) key. -/
  rate_limits : List ((Int × String) × List Int)
deriving DecidableEq

/-- Result of one wrapped invocation : whether the handler body ran, and
the bot_data afterwards. -/
structure StepResult where
  allowed : Bool
  state : BotData
deriving DecidableEq

/-- One invocation of a handler wrapped by rate_limit(max_calls,
window_seconds) for a given user : evict timestamps at or before
current_time minus the window (the eviction is written back in place even
when the call is then rejected), reject without appending when the
remaining count reaches max_calls, otherwise append the current timestamp
and allow the body to run. -/
def rateLimitStep (max_calls : Nat) (window_seconds : Int) (user_id : Int)
    (func_name : String) (bd : BotData) : StepResult :=
  let current_time : Int := bd.current_time.getD 0
  let key : Int × String := (user_id, func_name)
  let call_times : List Int := (dictGet bd.rate_limits key).getD []
  let cutoff_time : Int := current_time - window_seconds
  let kept := call_times.filter (fun t => cutoff_time < t)
  if max_calls ≤ kept.length then
    { allowed := false
      state := { bd with rate_limits := dictSet bd.rate_limits key kept } }
  else
    { allowed := true
      state := { bd with
        rate_limits := dictSet bd.rate_limits key (kept ++ [current_time]) } }

/-- State of the rate limiter after n invocations by one user of one
handler gated at max 3 calls per 60 seconds, in the program as shipped
(the current_time key is never stored, so every invocation reads clock
value 0 regardless of how much real time has passed between calls). -/
def frozenSeq (n : Nat) : BotData :=
  match n with
  | 0 => { current_time := none, rate_limits := [] }
  | k + 1 => (rateLimitStep 3 60 7 "handle" (frozenSeq k)).state

end RateLimit

namespace Loader

/-! Module src/handlers/loader.py, CommandLoader. -/

/-- COMMAND_INFO metadata declared by a handler module.  The record type
already guarantees the three required fields exist; the commands list may
still be empty, which validation rejects. -/
structure CommandInfo where
  commands : List String
  description : String
  category : String
deriving DecidableEq

/-- Entry stored in CommandLoader.commands for one trigger : the declared
metadata together with the providing module (standing in for the handler
function object). -/
structure RegEntry where
  info : CommandInfo
  module : String
  category : String
deriving DecidableEq

/-- Registration state of CommandLoader : the trigger-to-entry dict and
the per-category trigger listing. -/
structure Registry where
  commands : List (String × RegEntry)
  categories : List (String × List String)
deriving DecidableEq

def emptyRegistry : Registry := { commands := [], categories := [] }

/-- CommandLoader._validate_command_info : the required fields are present
(enforced by the record type here) and the commands list is a nonempty
list. -/
def validate_command_info (info : CommandInfo) : Bool :=
  !info.commands.isEmpty

/-- Appending a trigger to the listing of its category. -/
def appendCategory (cats : List (String × List String)) (cat cmd : String) :
    List (String × List String) :=
  match dictGet cats cat with
  | some l => dictSet cats cat (l ++ [cmd])
  | none => dictSet cats cat [cmd]

/-- CommandLoader._register_handlers : for every declared trigger, assign
the entry into the commands dict (a plain dict assignment that overwrites
any existing entry for the same trigger, with no duplicate check and no
error path) and append the trigger to its category listing. -/
def register_handlers (reg : Registry) (module : String) (info : CommandInfo)
    (category : String) : Registry :=
  info.commands.foldl
    (fun r cmd =>
      { commands := dictSet r.commands cmd
          { info := info, module := module, category := category }
        categories := appendCategory r.categories category cmd })
    reg

/-- CommandLoader._load_handler_file reduced to its registration effect :
a module whose COMMAND_INFO fails validation is skipped (an error is only
logged), otherwise its handlers are registered.  The return value is the
new registry; the function has no failure result at all. -/
def load_handler_module (reg : Registry) (module : String) (info : CommandInfo)
    (category : String) : Registry :=
  if validate_command_info info then register_handlers reg module info category
  else reg

end Loader

namespace ChatDB

/-! Module src/core/database.py, ChatCollection.  Documents are modelled
as association lists from field name to a value in a small universe of
BSON-like values; the collection is an association list from the string
primary key to the document, where insert_one appends and find_one looks
up. -/

/-- Value universe for stored document fields. -/
inductive DVal where
  | vBool (b : Bool)
  | vInt (n : Int)
  | vStr (s : String)
  | vNull
  | vTime (t : Nat)
  | vStrList (l : List String)
  | vDict (l : List (String × DVal))

/-- Stored document : field name to value, in insertion order. -/
abbrev Doc := List (String × DVal)

/-- The chats collection. -/
abbrev ChatStore := List (String × Doc)

open DVal

/-- Default lock map of create_chat : all 21 lock kinds disabled. -/
def defaultLocks : List (String × DVal) :=
  [("sticker", vBool false), ("animation", vBool false), ("media", vBool false),
   ("url", vBool false), ("button", vBool false), ("forward", vBool false),
   ("document", vBool false), ("photo", vBool false), ("video", vBool false),
   ("audio", vBool false), ("voice", vBool false), ("contact", vBool false),
   ("location", vBool false), ("rtl", vBool false), ("email", vBool false),
   ("phone", vBool false), ("bot", vBool false), ("inline", vBool false),
   ("game", vBool false), ("poll", vBool false), ("dice", vBool false)]

/-- Document literal built by ChatCollection.create_chat, field for field
in source order. -/
def create_chat_doc (chat_id : Int) (chat_type title : String) (now : Nat) : Doc :=
  [("_id", vStr (toString chat_id)),
   ("chat_type", vStr chat_type),
   ("title", vStr title),
   ("anon_admin", vBool false),
   ("admin_error", vBool true),
   ("admin_cache", vStrList []),
   ("admin_cache_updated", vNull),
   ("flood_limit", vInt 10),
   ("flood_mode", vStr "mute"),
   ("flood_timer", vDict [("count", vInt 10), ("duration", vInt 30)]),
   ("clear_flood", vBool true),
   ("antiraid_enabled", vBool false),
   ("antiraid_duration", vInt 21600),
   ("antiraid_action_time", vInt 3600),
   ("auto_antiraid", vInt 0),
   ("locks", vDict defaultLocks),
   ("lock_warns", vBool true),
   ("allowlist", vStrList []),
   ("captcha_enabled", vBool false),
   ("captcha_mode", vStr "button"),
   ("captcha_rules", vBool false),
   ("captcha_mute_time", vInt 0),
   ("captcha_kick", vBool false),
   ("captcha_kick_time", vInt 0),
   ("welcome_enabled", vBool true),
   ("welcome_text", vStr "Welcome {mention}!"),
   ("goodbye_enabled", vBool false),
   ("goodbye_text", vStr "Goodbye {first}!"),
   ("clean_welcome", vBool false),
   ("warn_mode", vStr "ban"),
   ("warn_limit", vInt 3),
   ("warn_time", vInt 0),
   ("fed_id", vNull),
   ("quiet_fed", vBool false),
   ("log_channel_id", vNull),
   ("log_categories", vStrList []),
   ("language", vStr "en"),
   ("clean_service", vDict
     [("all", vBool false), ("join", vBool false), ("leave", vBool false),
      ("boost", vBool false), ("location", vBool false), ("voice_chat", vBool false)]),
   ("reports_enabled", vBool true),
   ("rules", vNull),
   ("private_rules", vBool false),
   ("rules_button", vStr "Rules"),
   ("disabled_commands", vStrList []),
   ("disable_delete", vBool false),
   ("disable_admin", vBool false),
   ("private_notes", vBool false),
   ("anti_channel_pin", vBool false),
   ("clean_linked", vBool false),
   ("action_topic_id", vNull),
   ("connected_chat", vNull),
   ("leveling_enabled", vBool false),
   ("level_up_message", vStr "Congrats {mention}, you reached level {level}!"),
   ("created_at", vTime now),
   ("updated_at", vTime now)]

/-- ChatCollection.get_chat : find_one on the stringified chat id. -/
def get_chat (store : ChatStore) (chat_id : Int) : Option Doc :=
  dictGet store (toString chat_id)

/-- ChatCollection.create_chat : build the default document and insert it
into the collection, returning the document. -/
def create_chat (store : ChatStore) (chat_id : Int) (chat_type title : String)
    (now : Nat) : Doc × ChatStore :=
  let d := create_chat_doc chat_id chat_type title now
  (d, store ++ [(toString chat_id, d)])

/-- ChatCollection.get_or_create_chat : return the stored document when
one exists, otherwise create and persist the default document. -/
def get_or_create_chat (store : ChatStore) (chat_id : Int) (chat_type title : String)
    (now : Nat) : Doc × ChatStore :=
  match get_chat store chat_id with
  | some chat => (chat, store)
  | none => create_chat store chat_id chat_type title now

end ChatDB

namespace UserModel

/-! Module src/models/user.py.  Timestamps are Nat; datetime.utcnow() is
passed in as an explicit now parameter. -/

/-- Dataclass UserChatData with its field defaults. -/
structure UserChatData where
  approved : Bool := false
  warnings : Int := 0
  warn_reasons : List String := []
  last_warn : Option Nat := none
  message_count : Int := 0
  flood_start : Option Nat := none
  xp : Int := 0
  level : Int := 0
  last_xp : Option Nat := none
  balance : Int := 0
  bank : Int := 0
deriving DecidableEq

/-- Dataclass UserData, with chat_data as a dict keyed by the stringified
chat id. -/
structure UserData where
  user_id : String
  username : Option String := none
  first_name : String := ""
  last_name : String := ""
  chat_data : List (String × UserChatData) := []
  language : String := "en"
  created_at : Nat := 0
  updated_at : Nat := 0
deriving DecidableEq

/-- UserData.get_chat_data : get or create the per-chat record inside the
chat_data dict (the Python method mutates the dict in place when the key
is missing, so the possibly extended UserData is returned alongside). -/
def get_chat_data (u : UserData) (chat_id : Int) : UserChatData × UserData :=
  let key := toString chat_id
  match dictGet u.chat_data key with
  | some cd => (cd, u)
  | none =>
    let cd : UserChatData := {}
    (cd, { u with chat_data := dictSet u.chat_data key cd })

/-- Observation helper : the per-chat record an outside reader sees, with
dataclass defaults for a missing entry. -/
def chatDataAt (u : UserData) (chat_id : Int) : UserChatData :=
  (dictGet u.chat_data (toString chat_id)).getD {}

/-- UserData.add_warning : increment the count, append the reason, stamp
last_warn and updated_at. -/
def add_warning (u : UserData) (chat_id : Int) (reason : String) (now : Nat) : UserData :=
  let (cd, u') := get_chat_data u chat_id
  let cd' := { cd with
    warnings := cd.warnings + 1
    warn_reasons := cd.warn_reasons ++ [reason]
    last_warn := some now }
  { u' with chat_data := dictSet u'.chat_data (toString chat_id) cd', updated_at := now }

/-- UserData.remove_warning : when the count is positive, decrement it,
pop the last reason when the list is nonempty, stamp updated_at and
report success; otherwise report failure and change nothing beyond the
get-or-create of the per-chat record. -/
def remove_warning (u : UserData) (chat_id : Int) (now : Nat) : Bool × UserData :=
  let (cd, u') := get_chat_data u chat_id
  if 0 < cd.warnings then
    let cd' := { cd with
      warnings := cd.warnings - 1
      warn_reasons := cd.warn_reasons.dropLast }
    (true, { u' with chat_data := dictSet u'.chat_data (toString chat_id) cd', updated_at := now })
  else
    (false, u')

/-- UserData.reset_warnings : zero the count, clear the reasons, clear
last_warn, stamp updated_at. -/
def reset_warnings (u : UserData) (chat_id : Int) (now : Nat) : UserData :=
  let (cd, u') := get_chat_data u chat_id
  let cd' := { cd with warnings := 0, warn_reasons := [], last_warn := none }
  { u' with chat_data := dictSet u'.chat_data (toString chat_id) cd', updated_at := now }

/-- User.calculate_level_from_xp : int((xp / 100) ** 0.5).  The Python
expression computes the floor of the real square root of xp divided by
100, which for natural xp equals the natural square root of the floored
quotient; it is modelled here as exact arithmetic. -/
def calculate_level_from_xp (xp : Nat) : Nat :=
  Nat.sqrt (xp / 100)

/-- User.calculate_xp_for_level : level * level * 100. -/
def calculate_xp_for_level (level : Nat) : Nat :=
  level * level * 100

end UserModel

namespace Resolver

/-! Module src/utils/user_resolver.py, UserResolver.  The transport is an
oracle inside the context; a none answer from the oracle models a raised
transport exception. -/

/-- Telegram User object as delivered by the transport. -/
structure TgUser where
  id : Int
  first_name : Option String
  last_name : Option String
  username : Option String
  is_bot : Bool
deriving DecidableEq

/-- Chat member record returned by get_chat_member; the status string is
one of the telegram constants, with owner and administrator spelled
creator and administrator. -/
structure ChatMember where
  user : TgUser
  status : String
deriving DecidableEq

/-- Normalized user descriptor dict produced by the resolver. -/
structure UserInfo where
  id : Option Int
  first_name : String
  last_name : Option String
  username : Option String
  is_bot : Bool
deriving DecidableEq

/-- Slice of the handler context the resolver and the ban handlers read :
the parsed command arguments, the transport oracle for get_chat_member
(first argument chat id, second user id; none models an exception), the
configured owner id from bot_data, the id of the bot itself, and whether
a ban_chat_member transport call succeeds. -/
structure Ctx where
  args : List String
  getChatMember : Int → Int → Option ChatMember
  owner_id : Option Int
  botId : Int
  banOk : Bool

/-- Triggering update : chat id and the sender of the replied-to message
when the command message is a reply. -/
structure Upd where
  chatId : Int
  reply_from : Option TgUser
deriving DecidableEq

/-- UserResolver._user_to_dict. -/
def user_to_dict (u : TgUser) : UserInfo :=
  { id := some u.id
    first_name := u.first_name.getD ""
    last_name := some (u.last_name.getD "")
    username := u.username
    is_bot := u.is_bot }

/-- Validity of the digit-and-underscore body of a Python integer
literal : digits with single underscores strictly between digits, as
int() accepts (ASCII model). -/
def pyDigitsOk : List Char → Bool
  | [] => false
  | [c] => c.isDigit
  | c :: d :: rest =>
    if d = '_' then c.isDigit && pyDigitsOk rest
    else c.isDigit && pyDigitsOk (d :: rest)

/-- Numeric value of such a body, ignoring underscores. -/
def pyDigitsVal (cs : List Char) : Nat :=
  TimeParser.digitsVal (cs.filter Char.isDigit)

/-- Sign-and-body step of Python int(str) on the stripped characters :
an optional sign followed by a valid digit body; anything else raises
ValueError, modelled as none. -/
def pyIntCore : List Char → Option Int
  | [] => none
  | c :: rest =>
    if c = '+' then (if pyDigitsOk rest then some (pyDigitsVal rest) else none)
    else if c = '-' then (if pyDigitsOk rest then some (-(pyDigitsVal rest : Int)) else none)
    else if pyDigitsOk (c :: rest) then some (pyDigitsVal (c :: rest)) else none

/-- Python int(str) : strip whitespace, then sign and digit body. -/
def pyInt (s : String) : Option Int :=
  pyIntCore (TimeParser.pyStrip s.data)

/-- UserResolver._resolve_by_id : parse the text as an integer user id;
then try the transport, and on a transport exception synthesize a
placeholder descriptor carrying that id. -/
def resolve_by_id (ctx : Ctx) (text : String) : Option UserInfo :=
  match pyInt text with
  | none => none
  | some user_id =>
    match ctx.getChatMember user_id user_id with
    | some m => some (user_to_dict m.user)
    | none =>
      some { id := some user_id
             first_name := "User " ++ toString user_id
             username := none
             last_name := none
             is_bot := false }

/-- Username validation regex of _resolve_by_username : 5 to 32 word
characters. -/
def usernameOk (cs : List Char) : Bool :=
  decide (5 ≤ cs.length) && decide (cs.length ≤ 32) &&
    cs.all (fun c => c.isAlphanum || c = '_')

/-- UserResolver._resolve_by_username : strip, drop one leading at sign,
validate; the transport cannot look up ids by username, so the descriptor
id is none. -/
def resolve_by_username (text : String) : Option UserInfo :=
  let stripped := TimeParser.pyStrip text.data
  let uname := match stripped with
    | '@' :: rest => rest
    | cs => cs
  if usernameOk uname then
    some { id := none
           first_name := "@" ++ String.mk uname
           username := some (String.mk uname)
           last_name := none
           is_bot := false }
  else none

/-- Attempted match of the mention regex at the current position : an
opening bracket, a nonempty name free of closing brackets, the literal
part between the name and the id digits, one or more digits, and the
closing parenthesis. -/
def mentionAt (cs : List Char) : Option (String × Nat) :=
  match cs with
  | '[' :: rest =>
    let name := rest.takeWhile (fun c => c ≠ ']')
    let rest2 := rest.dropWhile (fun c => c ≠ ']')
    if name.isEmpty then none
    else
      match rest2 with
      | ']' :: '(' :: rest3 =>
        if rest3.take 13 = "tg://user?id=".data then
          let rest4 := rest3.drop 13
          let ds := rest4.takeWhile Char.isDigit
          match ds, rest4.dropWhile Char.isDigit with
          | _ :: _, ')' :: _ => some (String.mk name, TimeParser.digitsVal ds)
          | _, _ => none
        else none
      | _ => none
  | _ => none

/-- Scan of re.search : try the pattern at every position, earliest match
wins. -/
def searchMention : List Char → Option (String × Nat)
  | [] => none
  | c :: rest =>
    match mentionAt (c :: rest) with
    | some r => some r
    | none => searchMention rest

/-- UserResolver._resolve_by_mention. -/
def resolve_by_mention (text : String) : Option UserInfo :=
  match searchMention text.data with
  | some (name, uid) =>
    some { id := some (uid : Int)
           first_name := name
           username := none
           last_name := none
           is_bot := false }
  | none => none

/-- Python str.join with a single space separator. -/
def joinSpace : List String → String
  | [] => ""
  | [s] => s
  | s :: rest => s ++ " " ++ joinSpace rest

/-- UserResolver.resolve_user : a reply wins outright; otherwise the text
(or the joined command arguments) is tried as an integer id, then as a
username, then as a markdown mention; empty input resolves to none. -/
def resolve_user (upd : Upd) (ctx : Ctx) (text : Option String) : Option UserInfo :=
  match upd.reply_from with
  | some ru => some (user_to_dict ru)
  | none =>
    let t? : Option String :=
      match text with
      | some t => some t
      | none => if ctx.args.isEmpty then none else some (joinSpace ctx.args)
    match t? with
    | none => none
    | some t =>
      if t = "" then none
      else
        match resolve_by_id ctx t with
        | some ui => some ui
        | none =>
          match resolve_by_username t with
          | some ui => some ui
          | none => resolve_by_mention t

end Resolver

namespace Gates

/-! Module src/core/decorators.py, feature_enabled decorator.  The fetch
of the chat settings document is passed in as an Except value; an error
models a raised store exception, which the source catches and then falls
through to running the handler body. -/

open ChatDB

/-- Python truthiness of a stored document value, as used by the checks
of the form not settings.get(key, default). -/
def pyTruthy : DVal → Bool
  | DVal.vBool b => b
  | DVal.vInt n => decide (n ≠ 0)
  | DVal.vStr s => decide (s ≠ "")
  | DVal.vNull => false
  | DVal.vTime _ => true
  | DVal.vStrList l => !l.isEmpty
  | DVal.vDict l => !l.isEmpty

/-- settings.get(key, default) followed by a truthiness test. -/
def getTruthy (d : Doc) (key : String) (dflt : Bool) : Bool :=
  match dictGet d key with
  | some v => pyTruthy v
  | none => dflt

/-- settings.get with default empty list, for the disabled_commands
membership test; the stored shape is a list of command names. -/
def getStrList (d : Doc) (key : String) : List String :=
  match dictGet d key with
  | some (DVal.vStrList l) => l
  | _ => []

/-- feature_enabled(feature_name) wrapper, reduced to its decision : true
means the handler body runs.  A store error during the settings fetch is
caught and execution continues (fail open); a successful fetch blocks the
call when the feature name is in disabled_commands or its feature flag is
off. -/
def feature_enabled_gate (feature_name : String) (fetch : Except Unit Doc) : Bool :=
  match fetch with
  | Except.error _ => true
  | Except.ok s =>
    if feature_name ∈ getStrList s "disabled_commands" then false
    else if feature_name = "captcha" && !getTruthy s "captcha_enabled" false then false
    else if feature_name = "leveling" && !getTruthy s "leveling_enabled" false then false
    else if feature_name = "reports" && !getTruthy s "reports_enabled" true then false
    else true

end Gates

namespace Bans

/-! Module src/handlers/moderation/bans.py : handle_tban and
_check_user_protection.  The outcome of one invocation is reduced to the
ban_chat_member transport call it makes (if any) and the audit data it
attaches to the context as action_log_data (if any). -/

/-- The action_log_data attached by handle_tban on success : the fields
of the dict literal, with the metadata sub-dict flattened. -/
structure AuditData where
  target_user : String
  reason : String
  ban_type : String
  duration_seconds : Nat
  until_date : Nat
deriving DecidableEq

/-- Reduced outcome of handle_tban : the (user id, until date) argument
pair of the ban_chat_member transport call when one is made, and the
audit data recorded when the ban succeeded. -/
structure TbanResult where
  banCall : Option (Int × Nat)
  audit : Option AuditData
deriving DecidableEq

/-- The rejected outcome : no transport call, no audit entry. -/
def rejected : TbanResult := { banCall := none, audit := none }

/-- Maximum temp-ban duration accepted : 366 days in seconds. -/
def MAX_TBAN_SECONDS : Nat := 366 * 24 * 3600

/-- _check_user_protection : the target is protected when it is the
configured owner id, the bot itself, or a chat member whose status is
creator or administrator; the whole body sits in a try block whose
exception handler returns False, so a transport error during the
membership lookup reports the target as unprotected. -/
def check_user_protection (ctx : Resolver.Ctx) (upd : Resolver.Upd)
    (user_id : Int) : Bool :=
  if ctx.owner_id = some user_id then true
  else if user_id = ctx.botId then true
  else
    match ctx.getChatMember upd.chatId user_id with
    | some member => member.status = "creator" || member.status = "administrator"
    | none => false

/-- handle_tban : require at least two arguments, resolve the target,
require a definite numeric id (Python truthiness also rejects id 0),
refuse protected targets, parse the duration from the second argument
(truthiness rejects a zero duration), clamp-check against 366 days, then
call the transport ban with until date now plus the duration; the reason
is the join of the arguments after the first two, defaulting when absent,
and the audit data is attached only when the transport call succeeded. -/
def handle_tban (upd : Resolver.Upd) (ctx : Resolver.Ctx) (now : Nat) : TbanResult :=
  if ctx.args.length < 2 then rejected
  else
    match Resolver.resolve_user upd ctx none with
    | none => rejected
    | some target =>
      match target.id with
      | none => rejected
      | some user_id =>
        if user_id = 0 then rejected
        else if check_user_protection ctx upd user_id then rejected
        else
          let time_arg :=
            if 1 < ctx.args.length then ctx.args.getD 1 "" else ctx.args.getD 0 ""
          match TimeParser.parse_time_string time_arg with
          | none => rejected
          | some duration_seconds =>
            if duration_seconds = 0 then rejected
            else if MAX_TBAN_SECONDS < duration_seconds then rejected
            else
              let until_date := now + duration_seconds
              let reason :=
                if 2 < ctx.args.length then Resolver.joinSpace (ctx.args.drop 2)
                else "No reason provided"
              if ctx.banOk then
                { banCall := some (user_id, until_date)
                  audit := some
                    { target_user := toString user_id
                      reason := reason
                      ban_type := "tban"
                      duration_seconds := duration_seconds
                      until_date := until_date } }
              else
                { banCall := some (user_id, until_date), audit := none }

end Bans

/-! Helper lemmas about the dict model. -/

theorem dictGet_dictSet_self {α β : Type} [DecidableEq α] (l : List (α × β)) (k : α) (v : β) :
    dictGet (dictSet l k v) k = some v := by
  induction l with
  | nil => simp [dictSet, dictGet]
  | cons hd tl ih =>
    obtain ⟨k0, v0⟩ := hd
    by_cases h : k0 = k
    · simp [dictSet, dictGet, h]
    · simp [dictSet, dictGet, h, ih]

theorem mem_dictSet {α β : Type} [DecidableEq α] {l : List (α × β)} {k : α} {v : β}
    {e : α × β} (he : e ∈ dictSet l k v) : e = (k, v) ∨ e ∈ l := by
  induction l with
  | nil => simpa [dictSet] using he
  | cons hd tl ih =>
    obtain ⟨k0, v0⟩ := hd
    by_cases h : k0 = k
    · subst h
      simp [dictSet] at he
      rcases he with he | he
      · exact Or.inl (by simp [he])
      · exact Or.inr (by simp [he])
    · simp [dictSet, h] at he
      rcases he with he | he
      · exact Or.inr (by simp [he])
      · rcases ih he with h1 | h1
        · exact Or.inl h1
        · exact Or.inr (by simp [h1])

theorem dictGet_mem {α β : Type} [DecidableEq α] {l : List (α × β)} {k : α} {v : β}
    (h : dictGet l k = some v) : (k, v) ∈ l := by
  induction l with
  | nil => simp [dictGet] at h
  | cons hd tl ih =>
    obtain ⟨k0, v0⟩ := hd
    by_cases hk : k0 = k
    · subst hk
      simp [dictGet] at h
      simp [h]
    · simp [dictGet, hk] at h
      exact List.mem_cons_of_mem _ (ih h)

theorem dictGet_append_of_none {α β : Type} [DecidableEq α] {l1 : List (α × β)}
    (l2 : List (α × β)) {k : α} (h : dictGet l1 k = none) :
    dictGet (l1 ++ l2) k = dictGet l2 k := by
  induction l1 with
  | nil => simp
  | cons hd tl ih =>
    obtain ⟨k0, v0⟩ := hd
    by_cases hk : k0 = k
    · simp [dictGet, hk] at h
    · simp [dictGet, hk] at h ⊢
      exact ih h

/-! Claim C8 : the warning count never goes below zero, and removing a
warning at count zero is a reported no-op. -/

namespace UserModel

/-- Invariant : every per-chat record of a user has a nonnegative warning
count. -/
def warnNonneg (u : UserData) : Prop :=
  ∀ e ∈ u.chat_data, 0 ≤ e.2.warnings

theorem warnNonneg_get_chat_data {u : UserData} (chat_id : Int) (h : warnNonneg u) :
    warnNonneg (get_chat_data u chat_id).2 ∧ 0 ≤ (get_chat_data u chat_id).1.warnings := by
  unfold get_chat_data
  cases hg : dictGet u.chat_data (toString chat_id) with
  | some cd =>
    simp only [hg]
    refine ⟨by simpa using h, ?_⟩
    simpa using h _ (dictGet_mem hg)
  | none =>
    simp only [hg]
    constructor
    · intro e he
      simp at he
      rcases mem_dictSet he with rfl | he
      · simp
      · exact h _ he
    · simp

end UserModel

/-- Claim C8 : the add, remove and reset warning operations all preserve
nonnegativity of every stored warning count, and calling remove_warning
when the observed count is zero reports failure, leaves the count at
zero, and leaves the reason list and the last-warn timestamp unchanged
(no underflow, no error). -/
theorem claim_C8_warning_count_nonneg :
    (∀ (u : UserModel.UserData) (cid : Int) (r : String) (now : Nat),
      UserModel.warnNonneg u → UserModel.warnNonneg (UserModel.add_warning u cid r now)) ∧
    (∀ (u : UserModel.UserData) (cid : Int) (now : Nat),
      UserModel.warnNonneg u → UserModel.warnNonneg (UserModel.remove_warning u cid now).2) ∧
    (∀ (u : UserModel.UserData) (cid : Int) (now : Nat),
      UserModel.warnNonneg u → UserModel.warnNonneg (UserModel.reset_warnings u cid now)) ∧
    (∀ (u : UserModel.UserData) (cid : Int) (now : Nat),
      (UserModel.chatDataAt u cid).warnings = 0 →
      (UserModel.remove_warning u cid now).1 = false ∧
      (UserModel.chatDataAt (UserModel.remove_warning u cid now).2 cid).warnings = 0 ∧
      (UserModel.chatDataAt (UserModel.remove_warning u cid now).2 cid).warn_reasons
        = (UserModel.chatDataAt u cid).warn_reasons ∧
      (UserModel.chatDataAt (UserModel.remove_warning u cid now).2 cid).last_warn
        = (UserModel.chatDataAt u cid).last_warn) := by
  refine ⟨?_, ?_, ?_, ?_⟩
  · intro u cid r now h
    obtain ⟨h2, h1⟩ := UserModel.warnNonneg_get_chat_data cid h
    unfold UserModel.add_warning
    intro e he
    simp at he
    rcases mem_dictSet he with rfl | he
    · simpa using by omega
    · exact h2 _ he
  · intro u cid now h
    obtain ⟨h2, h1⟩ := UserModel.warnNonneg_get_chat_data cid h
    unfold UserModel.remove_warning
    by_cases hw : 0 < (UserModel.get_chat_data u cid).1.warnings
    · simp only [hw, if_pos]
      intro e he
      simp at he
      rcases mem_dictSet he with rfl | he
      · simpa using by omega
      · exact h2 _ he
    · simp only [hw, if_neg, not_false_iff]
      simpa using h2
  · intro u cid now h
    obtain ⟨h2, h1⟩ := UserModel.warnNonneg_get_chat_data cid h
    unfold UserModel.reset_warnings
    intro e he
    simp at he
    rcases mem_dictSet he with rfl | he
    · simp
    · exact h2 _ he
  · intro u cid now h
    unfold UserModel.remove_warning UserModel.get_chat_data
    unfold UserModel.chatDataAt at h ⊢
    cases hg : dictGet u.chat_data (toString cid) with
    | some cd =>
      simp only [hg]
      have hcd : cd.warnings = 0 := by simpa [hg] using h
      simp [hcd, hg]
    | none =>
      simp only [hg]
      have h0 : ¬ (0 : Int) < (({} : UserModel.UserChatData)).warnings := by simp
      simp [hg, dictGet_dictSet_self]

/-! Claim C9 : levels are monotone in xp and the xp-for-level formula is
the exact inverse boundary. -/

/-- Claim C9 : the level floor(sqrt(xp / 100)) is monotone nondecreasing
in xp, level of (level squared times 100) is the level itself, and one xp
below that boundary the level is one less. -/
theorem claim_C9_level_monotone_inverse :
    (∀ x1 x2 : Nat, x1 ≤ x2 →
      UserModel.calculate_level_from_xp x1 ≤ UserModel.calculate_level_from_xp x2) ∧
    (∀ L : Nat,
      UserModel.calculate_level_from_xp (UserModel.calculate_xp_for_level L) = L) ∧
    (∀ L : Nat, 1 ≤ L →
      UserModel.calculate_level_from_xp (UserModel.calculate_xp_for_level L - 1) = L - 1) := by
  refine ⟨?_, ?_, ?_⟩
  · intro x1 x2 h
    exact Nat.sqrt_le_sqrt (Nat.div_le_div_right h)
  · intro L
    unfold UserModel.calculate_level_from_xp UserModel.calculate_xp_for_level
    have h100 : L * L * 100 / 100 = L * L := by
      generalize L * L = T
      omega
    rw [h100, ← Nat.pow_two L]
    exact Nat.sqrt_eq' L
  · intro L hL
    obtain ⟨M, rfl⟩ := Nat.exists_eq_add_of_le hL
    unfold UserModel.calculate_level_from_xp UserModel.calculate_xp_for_level
    have hT : (1 + M) * (1 + M) = M * M + 2 * M + 1 := by ring
    have hdiv : ((1 + M) * (1 + M) * 100 - 1) / 100 = M * M + 2 * M := by
      rw [hT]
      generalize M * M + 2 * M = T
      omega
    rw [hdiv]
    have hle : M ≤ Nat.sqrt (M * M + 2 * M) := by
      rw [Nat.le_sqrt]
      exact Nat.le_add_right _ _
    have hlt : Nat.sqrt (M * M + 2 * M) < M + 1 := by
      rw [Nat.sqrt_lt]
      nlinarith
    omega

/-- Witness for claim C8 at a concrete fresh user : the observed count is
zero and removing a warning reports failure and changes nothing. -/
theorem claim_C8_warning_count_nonneg_witness :
    (UserModel.chatDataAt { user_id := "1" } 5).warnings = 0 ∧
    ((UserModel.remove_warning { user_id := "1" } 5 99).1 = false ∧
     (UserModel.chatDataAt (UserModel.remove_warning { user_id := "1" } 5 99).2 5).warnings = 0 ∧
     (UserModel.chatDataAt (UserModel.remove_warning { user_id := "1" } 5 99).2 5).warn_reasons
       = (UserModel.chatDataAt { user_id := "1" } 5).warn_reasons ∧
     (UserModel.chatDataAt (UserModel.remove_warning { user_id := "1" } 5 99).2 5).last_warn
       = (UserModel.chatDataAt { user_id := "1" } 5).last_warn) :=
  ⟨rfl, claim_C8_warning_count_nonneg.2.2.2 { user_id := "1" } 5 99 rfl⟩

/-- Witness for claim C9 at concrete inputs : monotonicity from xp 250 to
xp 1000, and the exact boundary at level 3. -/
theorem claim_C9_level_monotone_inverse_witness :
    (250 : Nat) ≤ 1000 ∧
    UserModel.calculate_level_from_xp 250 ≤ UserModel.calculate_level_from_xp 1000 ∧
    (1 : Nat) ≤ 3 ∧
    UserModel.calculate_level_from_xp (UserModel.calculate_xp_for_level 3) = 3 ∧
    UserModel.calculate_level_from_xp (UserModel.calculate_xp_for_level 3 - 1) = 2 :=
  ⟨by decide, claim_C9_level_monotone_inverse.1 250 1000 (by decide), by decide,
   claim_C9_level_monotone_inverse.2.1 3,
   claim_C9_level_monotone_inverse.2.2 3 (by decide)⟩

/-! Claim C3 : duplicate trigger registration.  The registration code has
no duplicate check and no error path at all : loading a second module
that declares an already registered trigger silently overwrites the
stored entry (last registration wins), contradicting the requirement
that this surface as a load-time error. -/

/-- Claim C3 (evidence of the code bug) : registering module_a for the
trigger ban and then module_b for the same trigger leaves the registry
mapping ban to the module_b entry; the first registration is silently
replaced and no error is reported (the loader has no failure result). -/
theorem claim_C3_duplicate_trigger_overwritten :
    dictGet (Loader.load_handler_module Loader.emptyRegistry "module_a"
        { commands := ["ban"], description := "first handler", category := "moderation" }
        "moderation").commands "ban"
      = some { info := { commands := ["ban"], description := "first handler",
                         category := "moderation" },
               module := "module_a", category := "moderation" } ∧
    dictGet (Loader.load_handler_module
        (Loader.load_handler_module Loader.emptyRegistry "module_a"
          { commands := ["ban"], description := "first handler", category := "moderation" }
          "moderation")
        "module_b"
        { commands := ["ban"], description := "second handler", category := "moderation" }
        "moderation").commands "ban"
      = some { info := { commands := ["ban"], description := "second handler",
                         category := "moderation" },
               module := "module_b", category := "moderation" } := by
  constructor <;> decide

/-! Claim C7 : the feature_enabled gate fails open on store errors. -/

/-- Claim C7 : when the settings fetch raises a store error the gate lets
the handler body run for every feature name (fail open); and whenever the
gate blocks execution, the settings read succeeded and either the feature
name is in the disabled-commands set of the chat or the matching feature
flag reports the feature disabled. -/
theorem claim_C7_feature_gate_fails_open :
    (∀ f : String, Gates.feature_enabled_gate f (Except.error ()) = true) ∧
    (∀ (f : String) (fetch : Except Unit ChatDB.Doc),
      Gates.feature_enabled_gate f fetch = false →
      ∃ s, fetch = Except.ok s ∧
        (f ∈ Gates.getStrList s "disabled_commands" ∨
         (f = "captcha" ∧ Gates.getTruthy s "captcha_enabled" false = false) ∨
         (f = "leveling" ∧ Gates.getTruthy s "leveling_enabled" false = false) ∨
         (f = "reports" ∧ Gates.getTruthy s "reports_enabled" true = false))) := by
  constructor
  · intro f
    rfl
  · intro f fetch h
    cases fetch with
    | error e => simp [Gates.feature_enabled_gate] at h
    | ok s =>
      refine ⟨s, rfl, ?_⟩
      simp only [Gates.feature_enabled_gate] at h
      split at h
      · left
        assumption
      · split at h
        · rename_i hc
          right; left
          simpa using hc
        · split at h
          · rename_i hc
            right; right; left
            simpa using hc
          · split at h
            · rename_i hc
              right; right; right
              simpa using hc
            · exact absurd h (by simp)

/-- Witness for claim C7 : the error side at the feature name captcha,
and the blocking side at a settings document that stores the captcha flag
as false. -/
theorem claim_C7_feature_gate_fails_open_witness :
    Gates.feature_enabled_gate "captcha" (Except.error ()) = true ∧
    (Gates.feature_enabled_gate "captcha"
        (Except.ok [("captcha_enabled", ChatDB.DVal.vBool false)]) = false ∧
      ∃ s, (Except.ok [("captcha_enabled", ChatDB.DVal.vBool false)]
              : Except Unit ChatDB.Doc) = Except.ok s ∧
        ("captcha" ∈ Gates.getStrList s "disabled_commands" ∨
         ("captcha" = "captcha" ∧ Gates.getTruthy s "captcha_enabled" false = false) ∨
         ("captcha" = "leveling" ∧ Gates.getTruthy s "leveling_enabled" false = false) ∨
         ("captcha" = "reports" ∧ Gates.getTruthy s "reports_enabled" true = false))) :=
  ⟨claim_C7_feature_gate_fails_open.1 "captcha",
   rfl,
   claim_C7_feature_gate_fails_open.2 "captcha"
     (Except.ok [("captcha_enabled", ChatDB.DVal.vBool false)]) rfl⟩

/-! Claim C1 : the rate limit gate.  The wrapper reads its clock from the
bot_data key current_time with default 0, and no module of the repository
ever stores that key; so every invocation observes clock value 0, stored
timestamps never age out of the window, and once a user has exhausted the
limit every later call is rejected no matter how much real time has
elapsed.  This contradicts the claimed sliding-window behavior (a new
call succeeding after the window fully elapses) and the stated design
goal of never locking a user out permanently. -/

theorem frozenSeq_three :
    RateLimit.frozenSeq 3
      = { current_time := none, rate_limits := [((7, "handle"), [0, 0, 0])] } := by
  decide

theorem frozenSeq_of_three_le {n : Nat} (h : 3 ≤ n) :
    RateLimit.frozenSeq n = RateLimit.frozenSeq 3 := by
  obtain ⟨k, rfl⟩ := Nat.exists_eq_add_of_le h
  induction k with
  | zero => rfl
  | succ m ih =>
    have hstep : RateLimit.frozenSeq (3 + (m + 1))
        = (RateLimit.rateLimitStep 3 60 7 "handle" (RateLimit.frozenSeq (3 + m))).state := rfl
    rw [hstep, ih (by omega)]
    decide

/-- Claim C1 (evidence of the code bug) : with the rate limiter at max 3
calls per 60 second window and the current_time key never stored (as in
the program as shipped), the first three calls are allowed and every call
from the fourth on is rejected forever; the claimed recovery after the
window elapses never happens because the clock the code reads is frozen
at 0. -/
theorem claim_C1_rate_limit_frozen_clock :
    (∀ k, k < 3 →
      (RateLimit.rateLimitStep 3 60 7 "handle" (RateLimit.frozenSeq k)).allowed = true) ∧
    (∀ n, 3 ≤ n →
      (RateLimit.rateLimitStep 3 60 7 "handle" (RateLimit.frozenSeq n)).allowed = false) := by
  constructor
  · intro k hk
    interval_cases k <;> decide
  · intro n hn
    rw [frozenSeq_of_three_le hn]
    decide

/-- Witness for claim C1 : the second call is allowed, and the eleventh
call (far past any 60 second window) is still rejected. -/
theorem claim_C1_rate_limit_frozen_clock_witness :
    ((1 : Nat) < 3 ∧
      (RateLimit.rateLimitStep 3 60 7 "handle" (RateLimit.frozenSeq 1)).allowed = true) ∧
    ((3 : Nat) ≤ 10 ∧
      (RateLimit.rateLimitStep 3 60 7 "handle" (RateLimit.frozenSeq 10)).allowed = false) :=
  ⟨⟨by decide, claim_C1_rate_limit_frozen_clock.1 1 (by decide)⟩,
   ⟨by decide, claim_C1_rate_limit_frozen_clock.2 10 (by decide)⟩⟩

/-! Claim C4 : get-or-create semantics of the chat settings store. -/

/-- Claim C4 : for a chat id with no stored settings document, a
get-or-create call returns exactly the fully defaulted document built by
create_chat (every settings field present with its default value), the
document is persisted under the chat id, a second get-or-create call
returns the identical document with the store unchanged, and exactly one
document was added. -/
theorem claim_C4_get_or_create_chat (store : ChatDB.ChatStore) (chat_id : Int)
    (ct title : String) (now : Nat)
    (h : ChatDB.get_chat store chat_id = none) :
    (ChatDB.get_or_create_chat store chat_id ct title now).1
        = ChatDB.create_chat_doc chat_id ct title now ∧
    ChatDB.get_chat (ChatDB.get_or_create_chat store chat_id ct title now).2 chat_id
        = some (ChatDB.get_or_create_chat store chat_id ct title now).1 ∧
    ChatDB.get_or_create_chat (ChatDB.get_or_create_chat store chat_id ct title now).2
        chat_id ct title now
      = ChatDB.get_or_create_chat store chat_id ct title now ∧
    (ChatDB.get_or_create_chat store chat_id ct title now).2.length
      = store.length + 1 := by
  have hget : ChatDB.get_chat
      (store ++ [(toString chat_id, ChatDB.create_chat_doc chat_id ct title now)]) chat_id
      = some (ChatDB.create_chat_doc chat_id ct title now) := by
    unfold ChatDB.get_chat at h ⊢
    rw [dictGet_append_of_none _ h]
    simp [dictGet]
  refine ⟨?_, ?_, ?_, ?_⟩
  · simp only [ChatDB.get_or_create_chat, h]
    rfl
  · simp only [ChatDB.get_or_create_chat, h]
    simpa [ChatDB.create_chat] using hget
  · conv_lhs => rw [ChatDB.get_or_create_chat]
    simp only [ChatDB.get_or_create_chat, h]
    simp only [ChatDB.create_chat] at hget ⊢
    rw [hget]
  · simp only [ChatDB.get_or_create_chat, h]
    simp [ChatDB.create_chat]

/-- Witness for claim C4 : a fresh empty store and chat id 42. -/
theorem claim_C4_get_or_create_chat_witness :
    ChatDB.get_chat [] 42 = none ∧
    (ChatDB.get_or_create_chat [] 42 "supergroup" "Unknown" 7).1
        = ChatDB.create_chat_doc 42 "supergroup" "Unknown" 7 ∧
    ChatDB.get_chat (ChatDB.get_or_create_chat [] 42 "supergroup" "Unknown" 7).2 42
        = some (ChatDB.get_or_create_chat [] 42 "supergroup" "Unknown" 7).1 ∧
    ChatDB.get_or_create_chat (ChatDB.get_or_create_chat [] 42 "supergroup" "Unknown" 7).2
        42 "supergroup" "Unknown" 7
      = ChatDB.get_or_create_chat [] 42 "supergroup" "Unknown" 7 ∧
    (ChatDB.get_or_create_chat [] 42 "supergroup" "Unknown" 7).2.length
      = ([] : ChatDB.ChatStore).length + 1 :=
  ⟨rfl,
   (claim_C4_get_or_create_chat [] 42 "supergroup" "Unknown" 7 rfl).1,
   (claim_C4_get_or_create_chat [] 42 "supergroup" "Unknown" 7 rfl).2.1,
   (claim_C4_get_or_create_chat [] 42 "supergroup" "Unknown" 7 rfl).2.2.1,
   (claim_C4_get_or_create_chat [] 42 "supergroup" "Unknown" 7 rfl).2.2.2⟩

/-! Helper lemmas about handle_tban on a reply-targeted invocation with
arguments [target, 1h, spam]. -/

theorem resolve_user_of_reply {upd : Resolver.Upd} {ru : Resolver.TgUser}
    (ctx : Resolver.Ctx) (text : Option String) (hreply : upd.reply_from = some ru) :
    Resolver.resolve_user upd ctx text = some (Resolver.user_to_dict ru) := by
  unfold Resolver.resolve_user
  rw [hreply]

theorem handle_tban_reply_banned {ru : Resolver.TgUser} {ctx : Resolver.Ctx}
    {upd : Resolver.Upd} (a0 : String) (now : Nat)
    (hreply : upd.reply_from = some ru) (hargs : ctx.args = [a0, "1h", "spam"])
    (hzero : ru.id ≠ 0)
    (hprot : Bans.check_user_protection ctx upd ru.id = false)
    (hban : ctx.banOk = true) :
    Bans.handle_tban upd ctx now =
      { banCall := some (ru.id, now + 3600)
        audit := some
          { target_user := toString ru.id
            reason := "spam"
            ban_type := "tban"
            duration_seconds := 3600
            until_date := now + 3600 } } := by
  have hp : TimeParser.parse_time_string "1h" = some 3600 := by decide
  unfold Bans.handle_tban
  rw [hargs, resolve_user_of_reply ctx none hreply]
  simp only [Resolver.user_to_dict, List.length, if_neg hzero, hprot, hban,
    Resolver.joinSpace]
  norm_num [hp, Bans.MAX_TBAN_SECONDS, List.getD, Resolver.joinSpace]

theorem handle_tban_reply_protected {ru : Resolver.TgUser} {ctx : Resolver.Ctx}
    {upd : Resolver.Upd} (a0 : String) (now : Nat)
    (hreply : upd.reply_from = some ru) (hargs : ctx.args = [a0, "1h", "spam"])
    (hprot : Bans.check_user_protection ctx upd ru.id = true) :
    Bans.handle_tban upd ctx now = Bans.rejected := by
  unfold Bans.handle_tban
  rw [hargs, resolve_user_of_reply ctx none hreply]
  by_cases hzero : ru.id = 0
  · simp [Resolver.user_to_dict, hzero]
  · simp [Resolver.user_to_dict, hzero, hprot]

/-! Claim C10 : the pre-ban protection check fails open on a transport
error during the membership lookup, while the owner-id and bot-self-id
guards (which run before the lookup) still apply. -/

/-- Claim C10 : when the membership lookup raises a transport error,
check_user_protection reports the target unprotected (false) provided the
target is neither the configured owner nor the bot itself, and the ban
then proceeds (the transport ban call is made); the owner-id and
bot-self-id guards still protect regardless of the lookup. -/
theorem claim_C10_protection_fails_open_on_transport_error :
    (∀ (ctx : Resolver.Ctx) (upd : Resolver.Upd) (uid : Int),
      ctx.getChatMember upd.chatId uid = none →
      ctx.owner_id ≠ some uid → uid ≠ ctx.botId →
      Bans.check_user_protection ctx upd uid = false) ∧
    (∀ (ctx : Resolver.Ctx) (upd : Resolver.Upd) (uid : Int),
      ctx.owner_id = some uid → Bans.check_user_protection ctx upd uid = true) ∧
    (∀ (ctx : Resolver.Ctx) (upd : Resolver.Upd) (uid : Int),
      uid = ctx.botId → Bans.check_user_protection ctx upd uid = true) ∧
    (∀ (ru : Resolver.TgUser) (a0 : String) (now : Nat) (ctx : Resolver.Ctx)
        (upd : Resolver.Upd),
      upd.reply_from = some ru → ctx.args = [a0, "1h", "spam"] →
      ctx.getChatMember upd.chatId ru.id = none →
      ctx.owner_id ≠ some ru.id → ru.id ≠ ctx.botId → ru.id ≠ 0 → ctx.banOk = true →
      (Bans.handle_tban upd ctx now).banCall = some (ru.id, now + 3600)) := by
  refine ⟨?_, ?_, ?_, ?_⟩
  · intro ctx upd uid hmem howner hbot
    simp [Bans.check_user_protection, hmem, howner, hbot]
  · intro ctx upd uid howner
    simp [Bans.check_user_protection, howner]
  · intro ctx upd uid hbot
    unfold Bans.check_user_protection
    by_cases howner : ctx.owner_id = some uid
    · simp [howner]
    · simp [howner, hbot]
  · intro ru a0 now ctx upd hreply hargs hmem howner hbot hzero hban
    have hprot : Bans.check_user_protection ctx upd ru.id = false := by
      simp [Bans.check_user_protection, hmem, howner, hbot]
    rw [handle_tban_reply_banned a0 now hreply hargs hzero hprot hban]

/-- Witness for claim C10 at a concrete context whose membership oracle
always reports a transport error. -/
theorem claim_C10_protection_fails_open_on_transport_error_witness :
    Bans.check_user_protection
      { args := ["x", "1h", "spam"], getChatMember := fun _ _ => none,
        owner_id := some 1, botId := 2, banOk := true }
      { chatId := 100, reply_from := none } 5 = false ∧
    (Bans.handle_tban
      { chatId := 100,
        reply_from := some { id := 5, first_name := some "Eve", last_name := none,
                             username := none, is_bot := false } }
      { args := ["x", "1h", "spam"], getChatMember := fun _ _ => none,
        owner_id := some 1, botId := 2, banOk := true } 1000).banCall
      = some (5, 1000 + 3600) :=
  ⟨claim_C10_protection_fails_open_on_transport_error.1
      { args := ["x", "1h", "spam"], getChatMember := fun _ _ => none,
        owner_id := some 1, botId := 2, banOk := true }
      { chatId := 100, reply_from := none } 5 rfl (by decide) (by decide),
   claim_C10_protection_fails_open_on_transport_error.2.2.2
      { id := 5, first_name := some "Eve", last_name := none,
        username := none, is_bot := false }
      "x" 1000
      { args := ["x", "1h", "spam"], getChatMember := fun _ _ => none,
        owner_id := some 1, botId := 2, banOk := true }
      { chatId := 100,
        reply_from := some { id := 5, first_name := some "Eve", last_name := none,
                             username := none, is_bot := false } }
      rfl rfl rfl (by decide) (by decide) (by decide) rfl⟩

/-! Claim C5 : the /tban command.  As literally stated the claim fails :
without a reply, the resolver receives the joined argument text
"@baduser 1h spam", which parses as neither an integer id nor a username
(the regex rejects the embedded spaces) nor a markdown mention, so the
handler stops with a resolution error, makes no ban transport call and
records no audit entry — and a bare @username target alone can never
carry a numeric id anyway.  The nearby true statement quantifies over
invocations whose target is resolved from the reply. -/

/-- Claim C5 counterexample : a non-reply /tban @baduser 1h spam against
a genuinely non-admin target (the membership oracle reports every user as
a plain member and the ban transport would succeed) produces no ban call
and no audit entry, contradicting the claim that such a command produces
a ban with an audit entry. -/
theorem claim_C5_counterexample_username_target :
    Bans.handle_tban
      { chatId := 100, reply_from := none }
      { args := ["@baduser", "1h", "spam"],
        getChatMember := fun _ u =>
          some { user := { id := u, first_name := some "Member", last_name := none,
                           username := some "baduser", is_bot := false },
                 status := "member" },
        owner_id := some 1, botId := 2, banOk := true } 1000
      = Bans.rejected := by
  decide

/-- Claim C5 as amended : for a /tban (target) 1h spam invocation whose
target user is resolved from the replied-to message, a non-admin,
non-owner, non-bot target is banned with until date exactly now + 3600
seconds, and the audit data carries reason spam with duration_seconds
3600; the same invocation against a target whose membership status is
creator or administrator is rejected with no audit entry and no ban
transport call. -/
theorem claim_C5_tban_reply_target (ru : Resolver.TgUser) (m : Resolver.ChatMember)
    (a0 : String) (now : Nat) (ctx : Resolver.Ctx) (upd : Resolver.Upd)
    (hreply : upd.reply_from = some ru) (hargs : ctx.args = [a0, "1h", "spam"])
    (howner : ctx.owner_id ≠ some ru.id) (hbot : ru.id ≠ ctx.botId)
    (hzero : ru.id ≠ 0)
    (hmem : ctx.getChatMember upd.chatId ru.id = some m)
    (hban : ctx.banOk = true) :
    (m.status ≠ "creator" → m.status ≠ "administrator" →
      Bans.handle_tban upd ctx now =
        { banCall := some (ru.id, now + 3600)
          audit := some
            { target_user := toString ru.id
              reason := "spam"
              ban_type := "tban"
              duration_seconds := 3600
              until_date := now + 3600 } }) ∧
    (m.status = "creator" ∨ m.status = "administrator" →
      Bans.handle_tban upd ctx now = Bans.rejected) := by
  constructor
  · intro hs1 hs2
    have hprot : Bans.check_user_protection ctx upd ru.id = false := by
      simp [Bans.check_user_protection, hmem, howner, hbot, hs1, hs2]
    exact handle_tban_reply_banned a0 now hreply hargs hzero hprot hban
  · intro hs
    have hprot : Bans.check_user_protection ctx upd ru.id = true := by
      rcases hs with hs | hs <;>
        simp [Bans.check_user_protection, hmem, howner, hbot, hs]
    exact handle_tban_reply_protected a0 now hreply hargs hprot

/-- Witness for amended claim C5 at a concrete reply-targeted invocation
with a plain-member target. -/
theorem claim_C5_tban_reply_target_witness :
    Bans.handle_tban
      { chatId := 100,
        reply_from := some { id := 5, first_name := some "Eve", last_name := none,
                             username := none, is_bot := false } }
      { args := ["@eve", "1h", "spam"],
        getChatMember := fun _ u =>
          some { user := { id := u, first_name := some "Member", last_name := none,
                           username := none, is_bot := false },
                 status := "member" },
        owner_id := some 1, botId := 2, banOk := true } 1000
      = { banCall := some (5, 1000 + 3600)
          audit := some
            { target_user := toString (5 : Int)
              reason := "spam"
              ban_type := "tban"
              duration_seconds := 3600
              until_date := 1000 + 3600 } } :=
  (claim_C5_tban_reply_target
    { id := 5, first_name := some "Eve", last_name := none,
      username := none, is_bot := false }
    { user := { id := 5, first_name := some "Member", last_name := none,
                username := none, is_bot := false },
      status := "member" }
    "@eve" 1000
    { args := ["@eve", "1h", "spam"],
      getChatMember := fun _ u =>
        some { user := { id := u, first_name := some "Member", last_name := none,
                         username := none, is_bot := false },
               status := "member" },
      owner_id := some 1, botId := 2, banOk := true }
    { chatId := 100,
      reply_from := some { id := 5, first_name := some "Eve", last_name := none,
                           username := none, is_bot := false } }
    rfl rfl (by decide) (by decide) (by decide) rfl rfl).1 (by decide) (by decide)

/-! Claim C6 : user resolution.  Character-level helper lemmas first. -/

theorem isDigit_not_isWhitespace {c : Char} (h : c.isDigit = true) :
    c.isWhitespace = false := by
  cases hw : c.isWhitespace
  · rfl
  · exfalso
    simp [Char.isWhitespace] at hw
    rcases hw with ((h1 | h1) | h1) | h1 <;> subst h1 <;> simp [Char.isDigit] at h

theorem dropWhile_eq_self_of_all_false {p : Char → Bool} {l : List Char}
    (h : ∀ c ∈ l, p c = false) : l.dropWhile p = l := by
  cases l with
  | nil => rfl
  | cons c tl => simp [List.dropWhile_cons, h c (by simp)]

theorem pyStrip_eq_self {cs : List Char} (h : ∀ c ∈ cs, c.isWhitespace = false) :
    TimeParser.pyStrip cs = cs := by
  unfold TimeParser.pyStrip
  rw [dropWhile_eq_self_of_all_false h]
  rw [dropWhile_eq_self_of_all_false (fun c hc => h c (List.mem_reverse.mp hc))]
  exact List.reverse_reverse cs

theorem pyDigitsOk_of_digits {ds : List Char} (h : ds ≠ [])
    (hd : ∀ c ∈ ds, c.isDigit = true) : Resolver.pyDigitsOk ds = true := by
  induction ds with
  | nil => simp at h
  | cons c tl ih =>
    cases tl with
    | nil => simp [Resolver.pyDigitsOk, hd c (by simp)]
    | cons d rest =>
      have hdu : d ≠ '_' := by
        intro he
        have := hd d (by simp)
        rw [he] at this
        simp at this
      simp only [Resolver.pyDigitsOk, if_neg hdu]
      rw [hd c (by simp), ih (by simp) (fun x hx => hd x (by simp [hx]))]
      rfl

theorem pyInt_of_digits {ds : List Char} (h : ds ≠ [])
    (hd : ∀ c ∈ ds, c.isDigit = true) :
    Resolver.pyInt (String.mk ds) = some ((TimeParser.digitsVal ds : Nat) : Int) := by
  have hstrip : TimeParser.pyStrip (String.mk ds).data = ds :=
    pyStrip_eq_self (fun c hc => isDigit_not_isWhitespace (hd c hc))
  have hval : Resolver.pyDigitsVal ds = TimeParser.digitsVal ds := by
    unfold Resolver.pyDigitsVal
    rw [List.filter_eq_self.mpr hd]
  unfold Resolver.pyInt
  rw [hstrip]
  cases ds with
  | nil => simp at h
  | cons c rest =>
    have hc := hd c (by simp)
    have hplus : c ≠ '+' := by
      intro he
      rw [he] at hc
      simp at hc
    have hminus : c ≠ '-' := by
      intro he
      rw [he] at hc
      simp at hc
    rw [Resolver.pyIntCore, if_neg hplus, if_neg hminus,
      if_pos (pyDigitsOk_of_digits (by simp) hd), hval]

theorem resolve_by_id_of_digits {ctx : Resolver.Ctx} {ds : List Char}
    (h : ds ≠ []) (hd : ∀ c ∈ ds, c.isDigit = true)
    (hcontract : ∀ (c u : Int) (m : Resolver.ChatMember),
      ctx.getChatMember c u = some m → m.user.id = u) :
    ∃ ui, Resolver.resolve_by_id ctx (String.mk ds) = some ui ∧
      ui.id = some ((TimeParser.digitsVal ds : Nat) : Int) := by
  unfold Resolver.resolve_by_id
  rw [pyInt_of_digits h hd]
  cases hg : ctx.getChatMember ((TimeParser.digitsVal ds : Nat) : Int)
      ((TimeParser.digitsVal ds : Nat) : Int) with
  | some m =>
    refine ⟨Resolver.user_to_dict m.user, ?_, ?_⟩
    · simp only [hg]
    · simp [Resolver.user_to_dict, hcontract _ _ _ hg]
  | none =>
    refine ⟨{ id := some ((TimeParser.digitsVal ds : Nat) : Int)
              first_name := "User " ++ toString ((TimeParser.digitsVal ds : Nat) : Int)
              username := none
              last_name := none
              is_bot := false }, ?_, rfl⟩
    simp only [hg]

/-- Claim C6 : a reply always resolves to the replied-to sender, whatever
the command arguments are; without a reply, a bare decimal-digit argument
resolves to a descriptor carrying exactly that numeric id (whether or not
the transport lookup succeeds, given that a successful lookup returns the
member that was asked for); and without a reply, argument text that
matches none of the three accepted forms (integer id, username, markdown
mention) resolves to not-found. -/
theorem claim_C6_user_resolution :
    (∀ (upd : Resolver.Upd) (ctx : Resolver.Ctx) (text : Option String)
        (ru : Resolver.TgUser),
      upd.reply_from = some ru →
      Resolver.resolve_user upd ctx text = some (Resolver.user_to_dict ru)) ∧
    (∀ (upd : Resolver.Upd) (ctx : Resolver.Ctx) (ds : List Char),
      upd.reply_from = none → ctx.args = [String.mk ds] → ds ≠ [] →
      (∀ c ∈ ds, c.isDigit = true) →
      (∀ (c u : Int) (m : Resolver.ChatMember),
        ctx.getChatMember c u = some m → m.user.id = u) →
      ∃ ui, Resolver.resolve_user upd ctx none = some ui ∧
        ui.id = some ((TimeParser.digitsVal ds : Nat) : Int)) ∧
    (∀ (upd : Resolver.Upd) (ctx : Resolver.Ctx),
      upd.reply_from = none → ctx.args ≠ [] →
      Resolver.resolve_by_id ctx (Resolver.joinSpace ctx.args) = none →
      Resolver.resolve_by_username (Resolver.joinSpace ctx.args) = none →
      Resolver.resolve_by_mention (Resolver.joinSpace ctx.args) = none →
      Resolver.resolve_user upd ctx none = none) := by
  refine ⟨?_, ?_, ?_⟩
  · intro upd ctx text ru hreply
    exact resolve_user_of_reply ctx text hreply
  · intro upd ctx ds hreply hargs hne hdig hcontract
    obtain ⟨ui, hui, hid⟩ := resolve_by_id_of_digits hne hdig hcontract
    refine ⟨ui, ?_, hid⟩
    have hts : String.mk ds ≠ "" := by
      intro hempty
      exact hne (congrArg String.data hempty)
    unfold Resolver.resolve_user
    rw [hreply, hargs]
    simp only [List.isEmpty, Bool.false_eq_true, if_false, Resolver.joinSpace]
    rw [if_neg hts, hui]
  · intro upd ctx hreply hargs hid huser hmention
    have hne : ctx.args.isEmpty = false := by
      cases hc : ctx.args with
      | nil => exact absurd hc hargs
      | cons a tl => rfl
    unfold Resolver.resolve_user
    rw [hreply]
    simp only [hne, Bool.false_eq_true, if_false]
    by_cases hts : Resolver.joinSpace ctx.args = ""
    · rw [if_pos hts]
    · rw [if_neg hts, hid, huser, hmention]

/-- Witness for claim C6 : a concrete reply, the concrete bare id text
123456789, and concrete unparseable text. -/
theorem claim_C6_user_resolution_witness :
    (Resolver.resolve_user
        { chatId := 1,
          reply_from := some { id := 9, first_name := some "Ann", last_name := none,
                               username := none, is_bot := false } }
        { args := ["whatever"], getChatMember := fun _ _ => none,
          owner_id := none, botId := 2, banOk := true } none
      = some (Resolver.user_to_dict
          { id := 9, first_name := some "Ann", last_name := none,
            username := none, is_bot := false })) ∧
    (∃ ui, Resolver.resolve_user
        { chatId := 1, reply_from := none }
        { args := [String.mk ['1', '2', '3', '4', '5', '6', '7', '8', '9']],
          getChatMember := fun _ _ => none,
          owner_id := none, botId := 2, banOk := true } none = some ui ∧
      ui.id = some ((TimeParser.digitsVal ['1', '2', '3', '4', '5', '6', '7', '8', '9'] : Nat) : Int)) ∧
    (Resolver.resolve_user
        { chatId := 1, reply_from := none }
        { args := ["???"], getChatMember := fun _ _ => none,
          owner_id := none, botId := 2, banOk := true } none = none) :=
  ⟨claim_C6_user_resolution.1
      { chatId := 1,
        reply_from := some { id := 9, first_name := some "Ann", last_name := none,
                             username := none, is_bot := false } }
      { args := ["whatever"], getChatMember := fun _ _ => none,
        owner_id := none, botId := 2, banOk := true } none
      { id := 9, first_name := some "Ann", last_name := none,
        username := none, is_bot := false } rfl,
   claim_C6_user_resolution.2.1
      { chatId := 1, reply_from := none }
      { args := [String.mk ['1', '2', '3', '4', '5', '6', '7', '8', '9']],
        getChatMember := fun _ _ => none,
        owner_id := none, botId := 2, banOk := true }
      ['1', '2', '3', '4', '5', '6', '7', '8', '9']
      rfl rfl (by decide) (by decide) (fun c u m hm => by simp at hm),
   claim_C6_user_resolution.2.2
      { chatId := 1, reply_from := none }
      { args := ["???"], getChatMember := fun _ _ => none,
        owner_id := none, botId := 2, banOk := true }
      rfl (by decide) (by decide) (by decide) (by decide)⟩

/-! Claim C2 : parse, format, re-parse of duration strings.  Arithmetic
lemmas about the format_duration loop first. -/

theorem partsSum_formatParts_add_rem (l : List (String × Nat)) :
    ∀ s : Nat, TimeParser.partsSum (TimeParser.formatParts l s)
      + TimeParser.formatRem l s = s := by
  induction l with
  | nil => intro s; simp [TimeParser.formatParts, TimeParser.formatRem, TimeParser.partsSum]
  | cons hd rest ih =>
    intro s
    obtain ⟨name, us⟩ := hd
    by_cases h : us ≤ s
    · have hAB := ih (s % us)
      simp only [TimeParser.formatParts, TimeParser.formatRem, if_pos h]
      simp only [TimeParser.partsSum, List.foldr_cons] at hAB ⊢
      rw [Nat.add_assoc, hAB, Nat.mul_comm]
      exact Nat.div_add_mod s us
    · have hAB := ih s
      simp only [TimeParser.formatParts, TimeParser.formatRem, if_neg h]
      exact hAB

theorem formatRem_formatUnits (s : Nat) :
    TimeParser.formatRem TimeParser.formatUnits s = 0 := by
  simp only [TimeParser.formatUnits, TimeParser.formatRem]
  split_ifs <;> omega

theorem partsSum_formatParts (s : Nat) :
    TimeParser.partsSum (TimeParser.formatParts TimeParser.formatUnits s) = s := by
  have h := partsSum_formatParts_add_rem TimeParser.formatUnits s
  rw [formatRem_formatUnits] at h
  omega

theorem mem_formatParts (l : List (String × Nat)) :
    ∀ (s : Nat) (p : Nat × String × Nat), p ∈ TimeParser.formatParts l s →
      (p.2.1, p.2.2) ∈ l := by
  induction l with
  | nil => intro s p hp; simp [TimeParser.formatParts] at hp
  | cons hd rest ih =>
    intro s p hp
    obtain ⟨name, us⟩ := hd
    by_cases h : us ≤ s
    · simp only [TimeParser.formatParts, if_pos h] at hp
      rcases List.mem_cons.mp hp with hp | hp
      · simp [hp]
      · exact List.mem_cons_of_mem _ (ih _ _ hp)
    · simp only [TimeParser.formatParts, if_neg h] at hp
      exact List.mem_cons_of_mem _ (ih _ _ hp)

theorem natDecimalCore_digits (fuel : Nat) :
    ∀ (n : Nat) (c : Char), c ∈ TimeParser.natDecimalCore fuel n → c.isDigit = true := by
  induction fuel with
  | zero => intro n c hc; simp [TimeParser.natDecimalCore] at hc
  | succ fuel ih =>
    intro n c hc
    unfold TimeParser.natDecimalCore at hc
    split at hc
    · rename_i h
      simp at hc
      subst hc
      interval_cases n <;> decide
    · rename_i h
      simp at hc
      rcases hc with hc | hc
      · exact ih (n / 10) c hc
      · subst hc
        have hm : n % 10 < 10 := Nat.mod_lt _ (by omega)
        generalize n % 10 = m at hm ⊢
        interval_cases m <;> decide

theorem natDecimal_digits (n : Nat) : ∀ c ∈ TimeParser.natDecimal n, c.isDigit = true :=
  fun c hc => natDecimalCore_digits (n + 1) n c hc

theorem isDigit_ne_space {c : Char} (h : c.isDigit = true) : c ≠ ' ' := by
  intro he
  rw [he] at h
  simp at h

theorem takeWhile_append_all {p : Char → Bool} {l1 : List Char} (l2 : List Char)
    (h : ∀ c ∈ l1, p c = true) :
    (l1 ++ l2).takeWhile p = l1 ++ l2.takeWhile p := by
  induction l1 with
  | nil => rfl
  | cons c tl ih =>
    have hc := h c (by simp)
    simp [List.takeWhile_cons, hc, ih (fun x hx => h x (by simp [hx]))]

theorem dropWhile_append_all {p : Char → Bool} {l1 : List Char} (l2 : List Char)
    (h : ∀ c ∈ l1, p c = true) :
    (l1 ++ l2).dropWhile p = l2.dropWhile p := by
  induction l1 with
  | nil => rfl
  | cons c tl ih =>
    simp only [List.cons_append, List.dropWhile_cons, h c (by simp)]
    exact ih (fun x hx => h x (by simp [hx]))

theorem filter_ne_space_eq_self {l : List Char} (h : ∀ c ∈ l, c ≠ ' ') :
    TimeParser.removeSpaces l = l := by
  unfold TimeParser.removeSpaces
  rw [List.filter_eq_self]
  intro a ha
  simpa using h a ha

theorem parse_time_string_digits_unit (ds : List Char) (u : Char) (h1 : ds ≠ [])
    (h2 : ∀ c ∈ ds, c.isDigit = true) (hus : u ≠ ' ')
    (huw : u.isWhitespace = false) (hud : u.isDigit = false) :
    TimeParser.parse_time_string (String.mk (ds ++ [u]))
      = (TIME_PATTERNS u).map (fun m => TimeParser.digitsVal ds * m) := by
  have hne : (String.mk (ds ++ [u])).data ≠ [] := by
    simp
  have hclean : TimeParser.removeSpaces (ds ++ [u]) = ds ++ [u] := by
    apply filter_ne_space_eq_self
    intro c hc
    rcases List.mem_append.mp hc with hc | hc
    · exact isDigit_ne_space (h2 c hc)
    · simp at hc
      subst hc
      exact hus
  have hstrip : TimeParser.pyStrip (ds ++ [u]) = ds ++ [u] := by
    apply pyStrip_eq_self
    intro c hc
    rcases List.mem_append.mp hc with hc | hc
    · exact isDigit_not_isWhitespace (h2 c hc)
    · simp at hc
      subst hc
      exact huw
  have htake : (ds ++ [u]).takeWhile Char.isDigit = ds := by
    rw [takeWhile_append_all [u] h2]
    simp [List.takeWhile_cons, hud]
  have hdrop : (ds ++ [u]).dropWhile Char.isDigit = [u] := by
    rw [dropWhile_append_all [u] h2]
    simp [List.dropWhile_cons, hud]
  unfold TimeParser.parse_time_string
  rw [if_neg hne]
  simp only []
  rw [hclean, hstrip, htake, hdrop]
  cases ds with
  | nil => exact absurd rfl h1
  | cons c tl => rfl

/-- Claim C2 counterexample : parsing 1m gives 60 seconds, formatting 60
seconds gives the prose string 1 minute, and re-parsing that string
yields none rather than 60. -/
theorem claim_C2_counterexample_roundtrip :
    TimeParser.parse_time_string "1m" = some 60 ∧
    TimeParser.format_duration 60 = "1 minute" ∧
    TimeParser.parse_time_string (TimeParser.format_duration 60) = none := by
  refine ⟨by decide, by decide, by decide⟩

/-! Structure of the characters of a formatted duration : the rendered
string is the first part followed by separators and further parts, and
every character is a digit, a space, a unit-name letter, a plural s, or a
separator character. -/

theorem joinMany_data (l : List String) :
    ∀ acc : String, ∃ t : List Char,
      (TimeParser.joinMany acc l).data = acc.data ++ t ∧
      ∀ c ∈ t, (∃ y ∈ l, c ∈ y.data) ∨ c ∈ [',', ' ', 'a', 'n', 'd'] := by
  induction l with
  | nil =>
    intro acc
    exact ⟨[], by simp [TimeParser.joinMany], by simp⟩
  | cons x xs ih =>
    intro acc
    cases xs with
    | nil =>
      refine ⟨(", and " : String).data ++ x.data, ?_, ?_⟩
      · show (acc ++ ", and " ++ x).data = _
        simp [String.data_append]
      · intro c hc
        rcases List.mem_append.mp hc with hc | hc
        · exact Or.inr ((by decide : ∀ z ∈ (", and " : String).data,
            z ∈ [',', ' ', 'a', 'n', 'd']) c hc)
        · exact Or.inl ⟨x, by simp, hc⟩
    | cons q rest =>
      obtain ⟨t', ht', htc'⟩ := ih (acc ++ ", " ++ x)
      refine ⟨(", " : String).data ++ x.data ++ t', ?_, ?_⟩
      · show (TimeParser.joinMany (acc ++ ", " ++ x) (q :: rest)).data = _
        rw [ht']
        simp [String.data_append]
      · intro c hc
        simp only [List.append_assoc, List.mem_append] at hc
        rcases hc with hc | hc | hc
        · exact Or.inr ((by decide : ∀ z ∈ (", " : String).data,
            z ∈ [',', ' ', 'a', 'n', 'd']) c hc)
        · exact Or.inl ⟨x, by simp, hc⟩
        · rcases htc' c hc with ⟨y, hy, hcy⟩ | hc
          · exact Or.inl ⟨y, by simp [hy], hcy⟩
          · exact Or.inr hc

theorem joinParts_data (x : String) (xs : List String) :
    ∃ t : List Char, (TimeParser.joinParts (x :: xs)).data = x.data ++ t ∧
      ∀ c ∈ t, (∃ y ∈ xs, c ∈ y.data) ∨ c ∈ [',', ' ', 'a', 'n', 'd'] := by
  cases xs with
  | nil => exact ⟨[], by simp [TimeParser.joinParts], by simp⟩
  | cons q rest =>
    cases rest with
    | nil =>
      refine ⟨(" and " : String).data ++ q.data, ?_, ?_⟩
      · show (x ++ " and " ++ q).data = _
        simp [String.data_append]
      · intro c hc
        rcases List.mem_append.mp hc with hc | hc
        · exact Or.inr ((by decide : ∀ z ∈ (" and " : String).data,
            z ∈ [',', ' ', 'a', 'n', 'd']) c hc)
        · exact Or.inl ⟨q, by simp, hc⟩
    | cons r rest2 =>
      obtain ⟨t, ht, htc⟩ := joinMany_data (q :: r :: rest2) x
      refine ⟨t, ht, ?_⟩
      intro c hc
      rcases htc c hc with ⟨y, hy, hcy⟩ | hc
      · exact Or.inl ⟨y, hy, hcy⟩
      · exact Or.inr hc

theorem partString_data (p : Nat × String × Nat) :
    (TimeParser.partString p).data
      = TimeParser.natDecimal p.1
          ++ ' ' :: (p.2.1.data ++ (if p.1 = 1 then ("" : String) else "s").data) := by
  unfold TimeParser.partString
  simp [String.data_append]

theorem partString_chars_ws {c0 : Nat} {nm : String} {us : Nat}
    (hmem : (nm, us) ∈ TimeParser.formatUnits) :
    ∀ c ∈ (TimeParser.partString (c0, nm, us)).data, c.isWhitespace = true → c = ' ' := by
  intro c hc hw
  rw [partString_data] at hc
  simp only [List.mem_append, List.mem_cons] at hc
  rcases hc with hc | hc | hc | hc
  · have hd := natDecimal_digits c0 c hc
    rw [isDigit_not_isWhitespace hd] at hw
    exact absurd hw (by simp)
  · exact hc
  · fin_cases hmem <;> fin_cases hc <;> first | rfl | exact absurd hw (by decide)
  · by_cases h1 : c0 = 1
    · simp [h1] at hc
    · simp [h1] at hc
      subst hc
      exact absurd hw (by decide)

theorem format_duration_chars_ws (n : Nat) :
    ∀ c ∈ (TimeParser.format_duration n).data, c.isWhitespace = true → c = ' ' := by
  by_cases h0 : n = 0
  · subst h0
    intro c hc hw
    fin_cases hc <;> first | rfl | exact absurd hw (by decide)
  · unfold TimeParser.format_duration
    rw [if_neg h0]
    cases hps : TimeParser.formatParts TimeParser.formatUnits n with
    | nil =>
      intro c hc hw
      simp [TimeParser.joinParts] at hc
    | cons p0 ps =>
      intro c hc hw
      obtain ⟨cc0, nm0, us0⟩ := p0
      have hmem0 : (nm0, us0) ∈ TimeParser.formatUnits := by
        have := mem_formatParts TimeParser.formatUnits n (cc0, nm0, us0)
          (by rw [hps]; exact List.mem_cons_self _ _)
        simpa using this
      obtain ⟨t, ht, htc⟩ :=
        joinParts_data (TimeParser.partString (cc0, nm0, us0)) (ps.map TimeParser.partString)
      simp only [List.map_cons] at hc
      rw [ht] at hc
      rcases List.mem_append.mp hc with hc | hc
      · exact partString_chars_ws hmem0 c hc hw
      · rcases htc c hc with ⟨y, hy, hcy⟩ | hc
        · obtain ⟨p, hp, rfl⟩ := List.mem_map.mp hy
          obtain ⟨pc, pnm, pus⟩ := p
          have hmemp : (pnm, pus) ∈ TimeParser.formatUnits := by
            have := mem_formatParts TimeParser.formatUnits n (pc, pnm, pus)
              (by rw [hps]; exact List.mem_cons_of_mem _ hp)
            simpa using this
          exact partString_chars_ws hmemp c hcy hw
        · fin_cases hc <;> first | rfl | exact absurd hw (by decide)

theorem parse_format_duration_none (n : Nat) :
    TimeParser.parse_time_string (TimeParser.format_duration n) = none := by
  by_cases h0 : n = 0
  · subst h0
    decide
  · cases hps : TimeParser.formatParts TimeParser.formatUnits n with
    | nil =>
      exfalso
      have hsum := partsSum_formatParts n
      rw [hps] at hsum
      simp [TimeParser.partsSum] at hsum
      exact h0 hsum.symm
    | cons p0 ps =>
      obtain ⟨c0, nm, us⟩ := p0
      have hmem : (nm, us) ∈ TimeParser.formatUnits := by
        have := mem_formatParts TimeParser.formatUnits n (c0, nm, us)
          (by rw [hps]; exact List.mem_cons_self _ _)
        simpa using this
      have hnm : (∀ c ∈ nm.data, c ≠ ' ') ∧
          ∃ h1 h2 t2, nm.data = h1 :: h2 :: t2 ∧ h1.isDigit = false := by
        fin_cases hmem
        · exact ⟨by decide, 'w', 'e', ['e', 'k'], rfl, by decide⟩
        · exact ⟨by decide, 'd', 'a', ['y'], rfl, by decide⟩
        · exact ⟨by decide, 'h', 'o', ['u', 'r'], rfl, by decide⟩
        · exact ⟨by decide, 'm', 'i', ['n', 'u', 't', 'e'], rfl, by decide⟩
        · exact ⟨by decide, 's', 'e', ['c', 'o', 'n', 'd'], rfl, by decide⟩
      obtain ⟨hnmns, h1, h2, t2, hnmdata, h1d⟩ := hnm
      obtain ⟨t, ht, htc⟩ :=
        joinParts_data (TimeParser.partString (c0, nm, us)) (ps.map TimeParser.partString)
      have hdata : (TimeParser.format_duration n).data
          = TimeParser.natDecimal c0
              ++ ' ' :: (nm.data ++ ((if c0 = 1 then ("" : String) else "s").data ++ t)) := by
        unfold TimeParser.format_duration
        rw [if_neg h0, hps]
        simp only [List.map_cons]
        rw [ht, partString_data]
        simp
      have hws := format_duration_chars_ws n
      have hdig : ∀ c ∈ TimeParser.natDecimal c0, c.isDigit = true := natDecimal_digits c0
      have hclean : TimeParser.removeSpaces (TimeParser.format_duration n).data
          = TimeParser.natDecimal c0
              ++ (nm.data ++ TimeParser.removeSpaces
                    ((if c0 = 1 then ("" : String) else "s").data ++ t)) := by
        rw [hdata]
        unfold TimeParser.removeSpaces
        rw [List.filter_append, List.filter_cons]
        simp only [decide_not]
        rw [List.filter_eq_self.mpr (fun a ha => by simpa using isDigit_ne_space (hdig a ha))]
        simp only [List.filter_append]
        rw [List.filter_eq_self.mpr (fun a ha => by simpa using hnmns a ha)]
        simp [TimeParser.removeSpaces]
      have hcleanws : ∀ c ∈ TimeParser.removeSpaces (TimeParser.format_duration n).data,
          c.isWhitespace = false := by
        intro c hc
        unfold TimeParser.removeSpaces at hc
        have hmf := List.mem_filter.mp hc
        cases hwc : c.isWhitespace
        · rfl
        · exfalso
          have hsp := hws c hmf.1 hwc
          rw [hsp] at hmf
          simpa using hmf.2
      have hstrip : TimeParser.pyStrip
          (TimeParser.removeSpaces (TimeParser.format_duration n).data)
          = TimeParser.removeSpaces (TimeParser.format_duration n).data :=
        pyStrip_eq_self hcleanws
      have hdrop : (TimeParser.removeSpaces (TimeParser.format_duration n).data).dropWhile
            Char.isDigit
          = h1 :: h2 :: (t2 ++ TimeParser.removeSpaces
              ((if c0 = 1 then ("" : String) else "s").data ++ t)) := by
        rw [hclean, dropWhile_append_all _ hdig, hnmdata]
        simp [List.dropWhile_cons, h1d]
      have hne : (TimeParser.format_duration n).data ≠ [] := by
        rw [hdata]
        simp
      unfold TimeParser.parse_time_string
      rw [if_neg hne]
      simp only []
      rw [hstrip, hdrop]
      cases htw : (TimeParser.removeSpaces
          (TimeParser.format_duration n).data).takeWhile Char.isDigit with
      | nil => rfl
      | cons a b => rfl

/-- Claim C2 as amended : every duration string of digits followed by a
unit letter parses to a number of seconds, and format_duration decomposes
exactly that many seconds (the rendered unit counts weighted by their
unit seconds sum back to the parsed value); but the formatted string is
long-form prose that the duration regex does not accept, so re-parsing it
yields none rather than the same total seconds. -/
theorem claim_C2_parse_format_reparse (ds : List Char) (u : Char) (h1 : ds ≠ [])
    (h2 : ∀ c ∈ ds, c.isDigit = true) (h3 : u ∈ ['s', 'm', 'h', 'd', 'w', 'M']) :
    ∃ n, TimeParser.parse_time_string (String.mk (ds ++ [u])) = some n ∧
      TimeParser.partsSum (TimeParser.formatParts TimeParser.formatUnits n) = n ∧
      TimeParser.parse_time_string (TimeParser.format_duration n) = none := by
  have hu : TIME_PATTERNS u ≠ none ∧ u ≠ ' ' ∧ u.isWhitespace = false ∧ u.isDigit = false := by
    fin_cases h3 <;> exact ⟨by decide, by decide, by decide, by decide⟩
  obtain ⟨hupat, hus, huw, hud⟩ := hu
  cases hpat : TIME_PATTERNS u with
  | none => exact absurd hpat hupat
  | some mult =>
    refine ⟨TimeParser.digitsVal ds * mult, ?_, partsSum_formatParts _,
      parse_format_duration_none _⟩
    rw [parse_time_string_digits_unit ds u h1 h2 hus huw hud, hpat]
    rfl

/-- Witness for amended claim C2 at the concrete duration string 2h :
parse gives 7200, the format decomposition sums back to 7200, and the
re-parse of the formatted string is none. -/
theorem claim_C2_parse_format_reparse_witness :
    ∃ n, TimeParser.parse_time_string (String.mk (['2'] ++ ['h'])) = some n ∧
      TimeParser.partsSum (TimeParser.formatParts TimeParser.formatUnits n) = n ∧
      TimeParser.parse_time_string (TimeParser.format_duration n) = none :=
  claim_C2_parse_format_reparse ['2'] 'h' (by decide) (by decide) (by decide)

end ZyraXRobot
